import Mathlib

/-!
Shallow embedding of the convention-learning CRUD generation pipeline of
`mcp-tools/04-generation/标准代码生成MCP服务器.py` (class `代码生成MCP服务器Server`).

Modelling conventions:
* Python strings are `String` (ASCII case mapping, as all inputs are Java
  identifiers / package names).
* The file system is a map `String → Option String` from path to content;
  `os.sep` and `pathlib` joins are modelled with `"/"`.
* `os.walk` file discovery is abstracted: the analyzer receives the list of
  `.java` files found under `src/main/java`, in walk order, each given by its
  directory relative to the source root together with its text content.
* Python `max(set(xs), key=xs.count)` is modelled as the first element of
  `xs` whose count in `xs` is maximal (set iteration order modelled as
  first-insertion order).
* Mutation of the `project_info` dictionary is modelled by explicit state
  passing of a `ProjectInfo` structure.
-/

namespace EasyCodeGen

/-- Substring test on character lists: does `pat` occur inside the list? -/
def listContainsSub (pat : List Char) : List Char → Bool
  | [] => pat.isPrefixOf []
  | c :: cs => pat.isPrefixOf (c :: cs) || listContainsSub pat cs

/-- Python `pat in s` substring containment. -/
def strContains (s pat : String) : Bool :=
  listContainsSub pat.toList s.toList

/-- Python `s.startswith(pre)`. -/
def strStartsWith (s pre : String) : Bool :=
  pre.toList.isPrefixOf s.toList

/-- Python `s.endswith(suf)`. -/
def strEndsWith (s suf : String) : Bool :=
  suf.toList.reverse.isPrefixOf s.toList.reverse

/-- Python `s.lower()` (ASCII). -/
def pyLower (s : String) : String :=
  String.mk (s.toList.map Char.toLower)

/-- Python `s.strip()`: remove leading and trailing whitespace. -/
def strTrim (s : String) : String :=
  String.mk (((s.toList.dropWhile Char.isWhitespace).reverse.dropWhile Char.isWhitespace).reverse)

/-- Python `s[n:]`. -/
def strDrop (s : String) (n : Nat) : String :=
  String.mk (s.toList.drop n)

/-- Python `s[:-n]` (drop the last `n` characters). -/
def strDropRight (s : String) (n : Nat) : String :=
  String.mk ((s.toList.reverse.drop n).reverse)

/-- Helper for `splitOnChar`. -/
def splitOnCharGo (c : Char) : List Char → List Char → List String
  | [], acc => [String.mk acc.reverse]
  | d :: ds, acc =>
    if d = c then String.mk acc.reverse :: splitOnCharGo c ds []
    else splitOnCharGo c ds (d :: acc)

/-- Python `s.split(c)` for a one-character separator (also the behaviour of
`s.split('\n')`, `s.split('(')`, `s.split('<')`, `s.split('.')` used by the
source). Empty pieces are kept. -/
def splitOnChar (c : Char) (s : String) : List String :=
  splitOnCharGo c s.toList []

/-- Python `str.split()` with no argument: split on whitespace runs,
dropping empty pieces. -/
def pySplitWs (s : String) : List String :=
  (splitOnChar ' ' (String.mk (s.toList.map (fun c => if c.isWhitespace then ' ' else c)))).filter
    (fun t => t ≠ "")

/-- Python `s.replace(c, r)` for single characters (used for
`package_name.replace('.', os.sep)` with `os.sep = "/"`). -/
def replaceChar (s : String) (c r : Char) : String :=
  String.mk (s.toList.map (fun d => if d = c then r else d))

/-- Python `sep.join(parts)`. -/
def joinWith (sep : String) : List String → String
  | [] => ""
  | [x] => x
  | x :: y :: xs => x ++ sep ++ joinWith sep (y :: xs)

/-- Scan for `pyMostCommon`: keep the current best element, replacing it only
when a strictly more frequent element appears. -/
def pyMostCommonGo (xs : List String) (best : String) : List String → String
  | [] => best
  | y :: ys =>
    if xs.count best < xs.count y then pyMostCommonGo xs y ys
    else pyMostCommonGo xs best ys

/-- Python `max(set(xs), key=xs.count)` (for nonempty `xs`): an element of
maximal count in `xs`; ties are broken by first-insertion order, which models
one admissible iteration order of the Python set (iterating the deduplicated
elements coincides with this scan over `xs` itself, because a revisited
duplicate never has a strictly larger count than the current best).
Returns `none` on `[]`. -/
def pyMostCommon (xs : List String) : Option String :=
  match xs with
  | [] => none
  | x :: rest => some (pyMostCommonGo xs x rest)

/-- The five architectural layers recognized by the learner
(keys of `project_info["layer_patterns"]`). -/
inductive Layer where
  | entity
  | repository
  | service
  | controller
  | dto
deriving DecidableEq, Repr

/-- The string key used for each layer in the Python dictionaries. -/
def Layer.key : Layer → String
  | .entity => "entity"
  | .repository => "repository"
  | .service => "service"
  | .controller => "controller"
  | .dto => "dto"

/-- The package-name keyword rules of `_identify_layer` (lines 874-883):
case-insensitive substring match on the lowered package name. -/
def layerByPackage (packageLower : String) : Option Layer :=
  if strContains packageLower "entity" || strContains packageLower "model" || strContains packageLower "domain" then some .entity
  else if strContains packageLower "repository" || strContains packageLower "dao" || strContains packageLower "mapper" then some .repository
  else if strContains packageLower "service" then some .service
  else if strContains packageLower "controller" || strContains packageLower "web" || strContains packageLower "rest" then some .controller
  else if strContains packageLower "dto" || strContains packageLower "vo" || strContains packageLower "request" || strContains packageLower "response" then some .dto
  else none

/-- The class-name suffix rules of `_identify_layer` (lines 886-895) on the
lowered class name. -/
def layerByClassName (classLower : String) : Option Layer :=
  if strEndsWith classLower "entity" || strEndsWith classLower "model" then some .entity
  else if strEndsWith classLower "repository" || strEndsWith classLower "dao" || strEndsWith classLower "mapper" then some .repository
  else if strEndsWith classLower "service" || strEndsWith classLower "serviceimpl" then some .service
  else if strEndsWith classLower "controller" || strEndsWith classLower "resource" then some .controller
  else if strEndsWith classLower "dto" || strEndsWith classLower "vo" || strEndsWith classLower "request" || strEndsWith classLower "response" then some .dto
  else none

/-- The per-token rule of the annotation loop of `_identify_layer`
(lines 898-906). -/
def layerByOneAnnotationToken (a : String) : Option Layer :=
  if a = "@Entity" || a = "@Table" then some .entity
  else if a = "@Repository" || a = "@Mapper" then some .repository
  else if a = "@Service" || a = "@Component" then some .service
  else if a = "@Controller" || a = "@RestController" then some .controller
  else none

/-- The annotation loop of `_identify_layer`: first annotation token matching
any rule decides the layer. -/
def layerByAnnotations : List String → Option Layer
  | [] => none
  | a :: rest =>
    match layerByOneAnnotationToken a with
    | some l => some l
    | none => layerByAnnotations rest

/-- `_identify_layer(package_name, class_name, annotations, content)`
(lines 868-908), a direct transliteration of the nested conditionals.
The `content` argument is accepted and ignored, as in the source. -/
def identifyLayer (packageName className : String) (annotations : List String)
    (_content : String) : Option Layer :=
  let packageLower := pyLower packageName
  let classLower := pyLower className
  if strContains packageLower "entity" || strContains packageLower "model" || strContains packageLower "domain" then some .entity
  else if strContains packageLower "repository" || strContains packageLower "dao" || strContains packageLower "mapper" then some .repository
  else if strContains packageLower "service" then some .service
  else if strContains packageLower "controller" || strContains packageLower "web" || strContains packageLower "rest" then some .controller
  else if strContains packageLower "dto" || strContains packageLower "vo" || strContains packageLower "request" || strContains packageLower "response" then some .dto
  else if strEndsWith classLower "entity" || strEndsWith classLower "model" then some .entity
  else if strEndsWith classLower "repository" || strEndsWith classLower "dao" || strEndsWith classLower "mapper" then some .repository
  else if strEndsWith classLower "service" || strEndsWith classLower "serviceimpl" then some .service
  else if strEndsWith classLower "controller" || strEndsWith classLower "resource" then some .controller
  else if strEndsWith classLower "dto" || strEndsWith classLower "vo" || strEndsWith classLower "request" || strEndsWith classLower "response" then some .dto
  else layerByAnnotations annotations

/-- The ordered three-stage cascade: package rule, then class-name rule, then
annotation rule. -/
def classifyCascade (packageName className : String) (annotations : List String) : Option Layer :=
  match layerByPackage (pyLower packageName) with
  | some l => some l
  | none =>
    match layerByClassName (pyLower className) with
    | some l => some l
    | none => layerByAnnotations annotations

/-- Per-layer accumulated observations:
`project_info["layer_patterns"][layer]` (line 679-685). -/
structure LayerPatterns where
  dirs : List String
  naming : List String
  annotations : List String
deriving DecidableEq, Repr

/-- The five entries of `project_info["layer_patterns"]`. -/
structure LayerPatternsMap where
  entity : LayerPatterns
  repository : LayerPatterns
  service : LayerPatterns
  controller : LayerPatterns
  dto : LayerPatterns
deriving DecidableEq, Repr

/-- Dictionary lookup `project_info["layer_patterns"][layer]`. -/
def LayerPatternsMap.get (m : LayerPatternsMap) : Layer → LayerPatterns
  | .entity => m.entity
  | .repository => m.repository
  | .service => m.service
  | .controller => m.controller
  | .dto => m.dto

/-- Dictionary update of one layer's patterns. -/
def LayerPatternsMap.set (m : LayerPatternsMap) : Layer → LayerPatterns → LayerPatternsMap
  | .entity, p => { m with entity := p }
  | .repository, p => { m with repository := p }
  | .service, p => { m with service := p }
  | .controller, p => { m with controller := p }
  | .dto, p => { m with dto := p }

/-- `project_info["framework_info"]` (lines 694-698). -/
structure FrameworkInfo where
  orm : String
  web : String
  validation : String
deriving DecidableEq, Repr

/-- `project_info["project_conventions"]` (lines 686-693). -/
structure Conventions where
  entitySuffix : String
  repositorySuffix : String
  serviceSuffix : String
  controllerSuffix : String
  requestDtoPattern : String
  responseDtoPattern : String
deriving DecidableEq, Repr

/-- The mutable analysis state `project_info` of `_analyze_project_structure`.
The purely file-system fields (`has_maven`, `has_gradle`, `src_main_java`,
`project_root`) are handled outside this structure: the source directory and
project root are passed around explicitly as strings. -/
structure ProjectInfo where
  basePackage : String
  existingPackages : List String
  layerPatterns : LayerPatternsMap
  conventions : Conventions
  frameworkInfo : FrameworkInfo
deriving DecidableEq, Repr

/-- Empty per-layer observation lists. -/
def emptyPatterns : LayerPatterns :=
  { dirs := [], naming := [], annotations := [] }

/-- The initial `project_info` dictionary (lines 671-699). -/
def initialProjectInfo : ProjectInfo :=
  { basePackage := "com.example"
    existingPackages := []
    layerPatterns :=
      { entity := emptyPatterns, repository := emptyPatterns, service := emptyPatterns,
        controller := emptyPatterns, dto := emptyPatterns }
    conventions :=
      { entitySuffix := "Entity", repositorySuffix := "Repository", serviceSuffix := "Service",
        controllerSuffix := "Controller", requestDtoPattern := "Request",
        responseDtoPattern := "Response" }
    frameworkInfo := { orm := "unknown", web := "unknown", validation := "unknown" } }

/-- Result of the line scan of `_learn_from_java_file` (lines 824-842):
the last `package` line seen, the last `public class`/`public interface`
name seen, every annotation token in order (duplicates kept), and every
`package` line value in order (for `existing_packages`). -/
structure ParsedJava where
  packageName : Option String
  className : Option String
  annotations : List String
  packageLines : List String
deriving DecidableEq, Repr

/-- One iteration of the line loop of `_learn_from_java_file`. -/
def parseLine (acc : ParsedJava) (rawLine : String) : ParsedJava :=
  let line := strTrim rawLine
  let acc :=
    if strStartsWith line "package " && strEndsWith line ";" then
      let pkg := strTrim (strDropRight (strDrop line 8) 1)
      { acc with packageName := some pkg, packageLines := acc.packageLines ++ [pkg] }
    else acc
  let acc :=
    if strStartsWith line "public class " || strStartsWith line "public interface " then
      let parts := pySplitWs line
      if 3 ≤ parts.length then
        { acc with className := some ((splitOnChar '<' (parts.getD 2 "")).headD "") }
      else acc
    else acc
  if strStartsWith line "@" then
    { acc with annotations := acc.annotations ++ [(splitOnChar '(' line).headD ""] }
  else acc

/-- The whole line scan of `_learn_from_java_file` over `content.split('\n')`. -/
def parseJavaContent (content : String) : ParsedJava :=
  (splitOnChar '\n' content).foldl parseLine
    { packageName := none, className := none, annotations := [], packageLines := [] }

/-- Append `x` to `l` unless it is already present (the
`if x not in l: l.append(x)` idiom used throughout the learner). -/
def insertIfAbsent (l : List String) (x : String) : List String :=
  if x ∈ l then l else l ++ [x]

/-- JPA signal of `_analyze_framework_info` (line 913):
`any(ann in annotations for ann in ['@Entity', '@Table', '@Id'])`. -/
def jpaSignal (annotations : List String) : Bool :=
  ["@Entity", "@Table", "@Id"].any (fun ann => annotations.contains ann)

/-- MyBatis signal of `_analyze_framework_info` (line 915):
`'@Mapper' in annotations or 'mybatis' in content.lower()`. -/
def mybatisSignal (annotations : List String) (content : String) : Bool :=
  annotations.contains "@Mapper" || strContains (pyLower content) "mybatis"

/-- `_analyze_framework_info(annotations, content, project_info)`
(lines 910-924), acting on the `framework_info` sub-dictionary. -/
def analyzeFrameworkInfo (annotations : List String) (content : String)
    (info : FrameworkInfo) : FrameworkInfo :=
  let info :=
    if jpaSignal annotations then { info with orm := "jpa" }
    else if mybatisSignal annotations content then { info with orm := "mybatis" }
    else info
  let info :=
    if annotations.contains "@RestController" || annotations.contains "@Controller" then
      { info with web := "spring-mvc" }
    else info
  if annotations.any
      (fun ann => strStartsWith ann "@Valid" || strStartsWith ann "@NotNull" || strStartsWith ann "@NotBlank") then
    { info with validation := "javax.validation" }
  else info

/-- One discovered `.java` file: its directory relative to `src_main_java`
(`java_file.parent.relative_to(project_info["src_main_java"])`) and its text
content. -/
structure JavaFile where
  relativeDir : String
  content : String
deriving DecidableEq, Repr

/-- The per-layer record updates of `_learn_from_java_file` (lines 848-860):
directory, class name and annotation tokens, each inserted only if absent. -/
def recordPatterns (p : LayerPatterns) (relativeDir className : String)
    (annotationTokens : List String) : LayerPatterns :=
  let p := { p with dirs := insertIfAbsent p.dirs relativeDir }
  let p := { p with naming := insertIfAbsent p.naming className }
  { p with annotations := annotationTokens.foldl insertIfAbsent p.annotations }

/-- `_learn_from_java_file(java_file, project_info)` (lines 813-866): scan the
file's lines, record every package line into `existing_packages`, and when
`if package_name and class_name:` holds — by Python truthiness both must be
present *and* non-empty strings — and `_identify_layer` classifies the file,
record the observation and run `_analyze_framework_info`. -/
def learnFromJavaFile (file : JavaFile) (info : ProjectInfo) : ProjectInfo :=
  let parsed := parseJavaContent file.content
  let info := { info with existingPackages := parsed.packageLines.foldl insertIfAbsent info.existingPackages }
  match parsed.packageName, parsed.className with
  | some pkg, some cls =>
    if pkg ≠ "" ∧ cls ≠ "" then
      match identifyLayer pkg cls parsed.annotations file.content with
      | some layer =>
        let info :=
          { info with
            layerPatterns :=
              info.layerPatterns.set layer
                (recordPatterns (info.layerPatterns.get layer) file.relativeDir cls parsed.annotations) }
        { info with frameworkInfo := analyzeFrameworkInfo parsed.annotations file.content info.frameworkInfo }
      | none => info
    else info
  | _, _ => info

/-- Per-name suffix extraction of `_infer_project_conventions` (lines 932-957):
for the entity layer an unrecognized name contributes the empty suffix, for
the other layers an unrecognized name contributes nothing, and the dto layer
has no rule at all. -/
def suffixVote (layer : Layer) (name : String) : Option String :=
  match layer with
  | .entity =>
    some (if strEndsWith name "Entity" then "Entity"
          else if strEndsWith name "Model" then "Model"
          else "")
  | .repository =>
    if strEndsWith name "Repository" then some "Repository"
    else if strEndsWith name "Dao" then some "Dao"
    else if strEndsWith name "Mapper" then some "Mapper"
    else none
  | .service =>
    if strEndsWith name "ServiceImpl" then some "ServiceImpl"
    else if strEndsWith name "Service" then some "Service"
    else none
  | .controller =>
    if strEndsWith name "Controller" then some "Controller"
    else if strEndsWith name "Resource" then some "Resource"
    else none
  | .dto => none

/-- One layer's step of `_infer_project_conventions` (lines 929-969): if the
layer has observed names and at least one suffix vote, store the most common
vote into the layer's convention field; otherwise leave the conventions
unchanged. -/
def inferLayerConvention (layer : Layer) (patterns : LayerPatterns)
    (conv : Conventions) : Conventions :=
  if patterns.naming ≠ [] then
    let suffixes := patterns.naming.filterMap (suffixVote layer)
    if suffixes ≠ [] then
      match pyMostCommon suffixes with
      | some mostCommonSuffix =>
        match layer with
        | .entity => { conv with entitySuffix := mostCommonSuffix }
        | .repository => { conv with repositorySuffix := mostCommonSuffix }
        | .service => { conv with serviceSuffix := mostCommonSuffix }
        | .controller => { conv with controllerSuffix := mostCommonSuffix }
        | .dto => conv
      | none => conv
    else conv
  else conv

/-- `_infer_project_conventions(project_info)` (lines 926-969), iterating the
layers in dictionary insertion order. -/
def inferProjectConventions (info : ProjectInfo) : ProjectInfo :=
  let conv := info.conventions
  let conv := inferLayerConvention .entity (info.layerPatterns.get .entity) conv
  let conv := inferLayerConvention .repository (info.layerPatterns.get .repository) conv
  let conv := inferLayerConvention .service (info.layerPatterns.get .service) conv
  let conv := inferLayerConvention .controller (info.layerPatterns.get .controller) conv
  let conv := inferLayerConvention .dto (info.layerPatterns.get .dto) conv
  { info with conventions := conv }

/-- `True` iff all strings in the list are equal
(Python `len(set(parts_at_i)) == 1` for nonempty `parts_at_i`). -/
def allSame : List String → Bool
  | [] => true
  | x :: xs => xs.all (fun y => y = x)

/-- The common-prefix loop of `_analyze_project_structure` (lines 745-752),
structurally recursive on the remaining number of positions:
append the shared segment at position `i` and continue, or stop at the first
position where the segment lists disagree. -/
def commonPartsFrom (pkgParts : List (List String)) : Nat → Nat → List String
  | 0, _ => []
  | remaining + 1, i =>
    let partsAtI := pkgParts.map (fun parts => parts.getD i "")
    if allSame partsAtI then
      partsAtI.headD "" :: commonPartsFrom pkgParts remaining (i + 1)
    else []

/-- Python `min(len(parts) for parts in base_packages)` (0 on the empty
list, which the source never reaches). -/
def minLength (pkgParts : List (List String)) : Nat :=
  match pkgParts with
  | [] => 0
  | p :: ps => ps.foldl (fun m q => min m q.length) p.length

/-- The `common_parts` computed by `_analyze_project_structure`
(lines 742-752) from the observed package names. -/
def commonPartsOf (packages : List String) : List String :=
  let basePackages := packages.map (fun pkg => splitOnChar '.' pkg)
  commonPartsFrom basePackages (minLength basePackages) 0

/-- The base-package decision of `_analyze_project_structure` (lines 740-755):
keep `"com.example"` unless there are observed packages whose common prefix
has at least 2 segments. -/
def resolveBasePackage (packages : List String) : String :=
  if packages ≠ [] then
    let commonParts := commonPartsOf packages
    if 2 ≤ commonParts.length then joinWith "." commonParts
    else "com.example"
  else "com.example"

/-- `_analyze_project_structure(project_path)` (lines 665-759) with the file
walk abstracted into the input list: learn from every discovered file in walk
order, infer the naming conventions, then resolve the base package from the
accumulated `existing_packages`. A missing or empty source tree is the empty
list. -/
def analyzeProjectStructure (files : List JavaFile) : ProjectInfo :=
  let info := files.foldl (fun info file => learnFromJavaFile file info) initialProjectInfo
  let info := inferProjectConventions info
  { info with basePackage := resolveBasePackage info.existingPackages }

/-- `_get_layer_directory(layer, project_info, package_name)` (lines 971-983). -/
def getLayerDirectory (layer : Layer) (info : ProjectInfo) (packageName : String) : String :=
  let patterns := info.layerPatterns.get layer
  if patterns.dirs ≠ [] then
    match pyMostCommon patterns.dirs with
    | some d => d
    | none => ""
  else
    let packagePath := replaceChar packageName '.' '/'
    packagePath ++ "/" ++ layer.key

/-- `_get_class_suffix(layer, project_info)` (lines 985-996); the `.get`
defaults of the Python `suffix_map` never apply because every conventions key
is initialized, and `suffix_map.get(layer, "")` yields `""` for the dto layer. -/
def getClassSuffix (layer : Layer) (info : ProjectInfo) : String :=
  match layer with
  | .entity => info.conventions.entitySuffix
  | .repository => info.conventions.repositorySuffix
  | .service => info.conventions.serviceSuffix
  | .controller => info.conventions.controllerSuffix
  | .dto => ""

/-- Python `s.capitalize()` (ASCII): first character upper-cased, the rest
lower-cased. -/
def pyCapitalize (s : String) : String :=
  match s.toList with
  | [] => ""
  | c :: cs => String.mk (c.toUpper :: cs.map Char.toLower)

/-- One entry of the `fields` request argument: a JSON object in which the
`name` and `type` keys may each be absent. -/
structure FieldSpec where
  name : Option String
  type : Option String
deriving DecidableEq, Repr

/-- Python `field.get('name', 'field')`. -/
def FieldSpec.getName (f : FieldSpec) : String := f.name.getD "field"

/-- Python `field.get('type', 'String')`. -/
def FieldSpec.getType (f : FieldSpec) : String := f.type.getD "String"

/-- `_generate_entity_class(entity_name, fields, package_name)`
(lines 260-349). The blocks appended at source lines 285 and 331 are plain
(non-f) Python strings, so their `{entity_name}` and doubled braces are
emitted literally; this is reproduced faithfully. -/
def generateEntityClass (entityName : String) (fields : List FieldSpec)
    (packageName : String) : String :=
  let entityLower := pyLower entityName
  let code :=
    "package " ++ packageName ++ ".entity;\n\nimport javax.persistence.*;\nimport java.time.LocalDateTime;\n\n@Entity\n@Table(name = \"" ++ entityLower ++ "s\")\npublic class " ++ entityName ++ " \x7b\n    @Id\n    @GeneratedValue(strategy = GenerationType.IDENTITY)\n    private Long id;\n"
  let code := fields.foldl
    (fun code f =>
      code ++ "\n    @Column(name = \"" ++ f.getName ++ "\")\n    private " ++ f.getType ++ " " ++ f.getName ++ ";\n")
    code
  let code := code ++
    "\n    @Column(name = \"created_at\")\n    private LocalDateTime createdAt;\n\n    @Column(name = \"updated_at\")\n    private LocalDateTime updatedAt;\n\n    @PrePersist\n    protected void onCreate() \x7b\n        createdAt = LocalDateTime.now();\n        updatedAt = LocalDateTime.now();\n    \x7d\n\n    @PreUpdate\n    protected void onUpdate() \x7b\n        updatedAt = LocalDateTime.now();\n    \x7d\n\n    // Constructors\n    public \x7bentity_name\x7d() \x7b\x7b\x7d\x7d\n\n    // Getters and Setters\n    public Long getId() \x7b\x7b\n        return id;\n    \x7d\x7d\n\n    public void setId(Long id) \x7b\x7b\n        this.id = id;\n    \x7d\x7d\n"
  let code := fields.foldl
    (fun code f =>
      let capitalizedName := pyCapitalize f.getName
      code ++ "\n    public " ++ f.getType ++ " get" ++ capitalizedName ++ "() \x7b\n        return " ++ f.getName ++ ";\n    \x7d\n\n    public void set" ++ capitalizedName ++ "(" ++ f.getType ++ " " ++ f.getName ++ ") \x7b\n        this." ++ f.getName ++ " = " ++ f.getName ++ ";\n    \x7d\n")
    code
  code ++
    "\n    public LocalDateTime getCreatedAt() \x7b\n        return createdAt;\n    \x7d\n\n    public void setCreatedAt(LocalDateTime createdAt) \x7b\n        this.createdAt = createdAt;\n    \x7d\n\n    public LocalDateTime getUpdatedAt() \x7b\n        return updatedAt;\n    \x7d\n\n    public void setUpdatedAt(LocalDateTime updatedAt) \x7b\n        this.updatedAt = updatedAt;\n    \x7d\n\x7d"

/-- `_generate_repository_interface(entity_name, package_name)` (lines 351-377). -/
def generateRepositoryInterface (entityName packageName : String) : String :=
  "package " ++ packageName ++ ".repository;\n\nimport " ++ packageName ++ ".entity." ++ entityName ++ ";\nimport org.springframework.data.jpa.repository.JpaRepository;\nimport org.springframework.data.jpa.repository.Query;\nimport org.springframework.data.repository.query.Param;\nimport org.springframework.stereotype.Repository;\n\nimport java.util.List;\nimport java.util.Optional;\n\n@Repository\npublic interface " ++ entityName ++ "Repository extends JpaRepository<" ++ entityName ++ ", Long> \x7b\n\n    // 根据名称查找（假设有name字段）\n    Optional<" ++ entityName ++ "> findByName(String name);\n\n    // 分页查询活跃记录\n    @Query(\"SELECT e FROM " ++ entityName ++ " e WHERE e.createdAt >= :startDate\")\n    List<" ++ entityName ++ "> findRecentRecords(@Param(\"startDate\") java.time.LocalDateTime startDate);\n\n    // 统计总数\n    @Query(\"SELECT COUNT(e) FROM " ++ entityName ++ " e\")\n    long countTotal();\n\x7d"

/-- `_generate_service_class(entity_name, package_name)` (lines 379-467). -/
def generateServiceClass (entityName packageName : String) : String :=
  let el := pyLower entityName
  "package " ++ packageName ++ ".service;\n\nimport " ++ packageName ++ ".entity." ++ entityName ++ ";\nimport " ++ packageName ++ ".repository." ++ entityName ++ "Repository;\nimport " ++ packageName ++ ".dto.request.Create" ++ entityName ++ "Request;\nimport " ++ packageName ++ ".dto.response." ++ entityName ++ "Response;\nimport org.springframework.beans.factory.annotation.Autowired;\nimport org.springframework.data.domain.Page;\nimport org.springframework.data.domain.Pageable;\nimport org.springframework.stereotype.Service;\nimport org.springframework.transaction.annotation.Transactional;\n\nimport java.util.List;\nimport java.util.Optional;\nimport java.util.stream.Collectors;\n\n@Service\n@Transactional\npublic class " ++ entityName ++ "Service \x7b\n\n    @Autowired\n    private " ++ entityName ++ "Repository " ++ el ++ "Repository;\n\n    public List<" ++ entityName ++ "Response> findAll() \x7b\n        return " ++ el ++ "Repository.findAll()\n                .stream()\n                .map(this::convertToResponse)\n                .collect(Collectors.toList());\n    \x7d\n\n    public Page<" ++ entityName ++ "Response> findAll(Pageable pageable) \x7b\n        return " ++ el ++ "Repository.findAll(pageable)\n                .map(this::convertToResponse);\n    \x7d\n\n    public Optional<" ++ entityName ++ "Response> findById(Long id) \x7b\n        return " ++ el ++ "Repository.findById(id)\n                .map(this::convertToResponse);\n    \x7d\n\n    public " ++ entityName ++ "Response create(Create" ++ entityName ++ "Request request) \x7b\n        " ++ entityName ++ " entity = convertToEntity(request);\n        " ++ entityName ++ " saved = " ++ el ++ "Repository.save(entity);\n        return convertToResponse(saved);\n    \x7d\n\n    public Optional<" ++ entityName ++ "Response> update(Long id, Create" ++ entityName ++ "Request request) \x7b\n        return " ++ el ++ "Repository.findById(id)\n                .map(existing -> \x7b\n                    updateEntityFromRequest(existing, request);\n                    " ++ entityName ++ " updated = " ++ el ++ "Repository.save(existing);\n                    return convertToResponse(updated);\n                \x7d);\n    \x7d\n\n    public boolean delete(Long id) \x7b\n        if (" ++ el ++ "Repository.existsById(id)) \x7b\n            " ++ el ++ "Repository.deleteById(id);\n            return true;\n        \x7d\n        return false;\n    \x7d\n\n    public long count() \x7b\n        return " ++ el ++ "Repository.count();\n    \x7d\n\n    // 转换方法\n    private " ++ entityName ++ "Response convertToResponse(" ++ entityName ++ " entity) \x7b\n        " ++ entityName ++ "Response response = new " ++ entityName ++ "Response();\n        response.setId(entity.getId());\n        // TODO: 设置其他字段\n        response.setCreatedAt(entity.getCreatedAt());\n        response.setUpdatedAt(entity.getUpdatedAt());\n        return response;\n    \x7d\n\n    private " ++ entityName ++ " convertToEntity(Create" ++ entityName ++ "Request request) \x7b\n        " ++ entityName ++ " entity = new " ++ entityName ++ "();\n        // TODO: 从请求设置字段\n        return entity;\n    \x7d\n\n    private void updateEntityFromRequest(" ++ entityName ++ " entity, Create" ++ entityName ++ "Request request) \x7b\n        // TODO: 更新实体字段\n    \x7d\n\x7d"

/-- `_generate_controller_class(entity_name, package_name)` (lines 469-541). -/
def generateControllerClass (entityName packageName : String) : String :=
  let el := pyLower entityName
  "package " ++ packageName ++ ".controller;\n\nimport " ++ packageName ++ ".service." ++ entityName ++ "Service;\nimport " ++ packageName ++ ".dto.request.Create" ++ entityName ++ "Request;\nimport " ++ packageName ++ ".dto.response." ++ entityName ++ "Response;\nimport org.springframework.beans.factory.annotation.Autowired;\nimport org.springframework.data.domain.Page;\nimport org.springframework.data.domain.Pageable;\nimport org.springframework.http.HttpStatus;\nimport org.springframework.http.ResponseEntity;\nimport org.springframework.web.bind.annotation.*;\n\nimport javax.validation.Valid;\nimport java.util.List;\n\n@RestController\n@RequestMapping(\"/api/" ++ el ++ "s\")\n@CrossOrigin(origins = \"*\")\npublic class " ++ entityName ++ "Controller \x7b\n\n    @Autowired\n    private " ++ entityName ++ "Service " ++ el ++ "Service;\n\n    @GetMapping\n    public ResponseEntity<List<" ++ entityName ++ "Response>> getAllEntities() \x7b\n        List<" ++ entityName ++ "Response> entities = " ++ el ++ "Service.findAll();\n        return ResponseEntity.ok(entities);\n    \x7d\n\n    @GetMapping(\"/page\")\n    public ResponseEntity<Page<" ++ entityName ++ "Response>> getAllEntitiesPageable(Pageable pageable) \x7b\n        Page<" ++ entityName ++ "Response> entities = " ++ el ++ "Service.findAll(pageable);\n        return ResponseEntity.ok(entities);\n    \x7d\n\n    @GetMapping(\"/\x7bid\x7d\")\n    public ResponseEntity<" ++ entityName ++ "Response> getEntityById(@PathVariable Long id) \x7b\n        return " ++ el ++ "Service.findById(id)\n                .map(entity -> ResponseEntity.ok(entity))\n                .orElse(ResponseEntity.notFound().build());\n    \x7d\n\n    @PostMapping\n    public ResponseEntity<" ++ entityName ++ "Response> createEntity(@Valid @RequestBody Create" ++ entityName ++ "Request request) \x7b\n        " ++ entityName ++ "Response created = " ++ el ++ "Service.create(request);\n        return ResponseEntity.status(HttpStatus.CREATED).body(created);\n    \x7d\n\n    @PutMapping(\"/\x7bid\x7d\")\n    public ResponseEntity<" ++ entityName ++ "Response> updateEntity(\n            @PathVariable Long id,\n            @Valid @RequestBody Create" ++ entityName ++ "Request request) \x7b\n        return " ++ el ++ "Service.update(id, request)\n                .map(entity -> ResponseEntity.ok(entity))\n                .orElse(ResponseEntity.notFound().build());\n    \x7d\n\n    @DeleteMapping(\"/\x7bid\x7d\")\n    public ResponseEntity<Void> deleteEntity(@PathVariable Long id) \x7b\n        if (" ++ el ++ "Service.delete(id)) \x7b\n            return ResponseEntity.noContent().build();\n        \x7d\n        return ResponseEntity.notFound().build();\n    \x7d\n\n    @GetMapping(\"/count\")\n    public ResponseEntity<Long> getCount() \x7b\n        long count = " ++ el ++ "Service.count();\n        return ResponseEntity.ok(count);\n    \x7d\n\x7d"

/-- `_generate_request_dto(entity_name, fields, package_name)` (lines 543-592).
A `String`-typed field gets not-blank plus max-size validation annotations;
any other type gets a not-null annotation. -/
def generateRequestDto (entityName : String) (fields : List FieldSpec)
    (packageName : String) : String :=
  let code :=
    "package " ++ packageName ++ ".dto.request;\n\nimport javax.validation.constraints.*;\n\npublic class Create" ++ entityName ++ "Request \x7b\n"
  let code := fields.foldl
    (fun code f =>
      if f.getType = "String" then
        code ++ "\n    @NotBlank(message = \"" ++ f.getName ++ " cannot be blank\")\n    @Size(max = 255, message = \"" ++ f.getName ++ " cannot exceed 255 characters\")\n    private " ++ f.getType ++ " " ++ f.getName ++ ";\n"
      else
        code ++ "\n    @NotNull(message = \"" ++ f.getName ++ " cannot be null\")\n    private " ++ f.getType ++ " " ++ f.getName ++ ";\n")
    code
  let code := code ++ "\n    public Create" ++ entityName ++ "Request() \x7b\x7d\n\n    // Getters and Setters\n"
  let code := fields.foldl
    (fun code f =>
      let capitalizedName := pyCapitalize f.getName
      code ++ "\n    public " ++ f.getType ++ " get" ++ capitalizedName ++ "() \x7b\n        return " ++ f.getName ++ ";\n    \x7d\n\n    public void set" ++ capitalizedName ++ "(" ++ f.getType ++ " " ++ f.getName ++ ") \x7b\n        this." ++ f.getName ++ " = " ++ f.getName ++ ";\n    \x7d\n")
    code
  code ++ "\x7d"

/-- `_generate_response_dto(entity_name, fields, package_name)`
(lines 594-663). The blocks appended at source lines 614 and 645 are plain
(non-f) Python strings, so `{entity_name}` and doubled braces are emitted
literally; this is reproduced faithfully. -/
def generateResponseDto (entityName : String) (fields : List FieldSpec)
    (packageName : String) : String :=
  let code :=
    "package " ++ packageName ++ ".dto.response;\n\nimport java.time.LocalDateTime;\n\npublic class " ++ entityName ++ "Response \x7b\n\n    private Long id;\n"
  let code := fields.foldl
    (fun code f =>
      code ++ "\n    private " ++ f.getType ++ " " ++ f.getName ++ ";\n")
    code
  let code := code ++
    "\n    private LocalDateTime createdAt;\n    private LocalDateTime updatedAt;\n\n    public \x7bentity_name\x7dResponse() \x7b\x7b\x7d\x7d\n\n    // Getters and Setters\n    public Long getId() \x7b\x7b\n        return id;\n    \x7d\x7d\n\n    public void setId(Long id) \x7b\x7b\n        this.id = id;\n    \x7d\x7d\n"
  let code := fields.foldl
    (fun code f =>
      let capitalizedName := pyCapitalize f.getName
      code ++ "\n    public " ++ f.getType ++ " get" ++ capitalizedName ++ "() \x7b\n        return " ++ f.getName ++ ";\n    \x7d\n\n    public void set" ++ capitalizedName ++ "(" ++ f.getType ++ " " ++ f.getName ++ ") \x7b\n        this." ++ f.getName ++ " = " ++ f.getName ++ ";\n    \x7d\n")
    code
  code ++
    "\n    public LocalDateTime getCreatedAt() \x7b\n        return createdAt;\n    \x7d\n\n    public void setCreatedAt(LocalDateTime createdAt) \x7b\n        this.createdAt = createdAt;\n    \x7d\n\n    public LocalDateTime getUpdatedAt() \x7b\n        return updatedAt;\n    \x7d\n\n    public void setUpdatedAt(LocalDateTime updatedAt) \x7b\n        this.updatedAt = updatedAt;\n    \x7d\n\x7d"

/-- The keys of the `generated_files` dictionary built by
`handle_generate_crud_module` (lines 171-178), in insertion order. -/
inductive GenKey where
  | entity
  | repository
  | service
  | controller
  | dtoRequest
  | dtoResponse
deriving DecidableEq, Repr

/-- The file system: a map from path to file content. Directory creation
(`mkdir(parents=True, exist_ok=True)`) is idempotent and modelled as a no-op. -/
def Fs := String → Option String

/-- Writing a file, overwriting unconditionally (`open(file_path, 'w')`). -/
def fsWrite (fs : Fs) (path content : String) : Fs :=
  fun p => if p = path then some content else fs p

/-- A file system with no files. -/
def fsEmpty : Fs := fun _ => none

/-- The per-unit directory of `_save_files_to_learned_structure`
(lines 1014-1023): dto units go into a `request` / `response` subdirectory of
the learned dto layer directory; other units go into their layer's learned
directory; all under `src_main_java`. -/
def layerPathFor (key : GenKey) (info : ProjectInfo) (packageName srcMainJava : String) : String :=
  match key with
  | .entity => srcMainJava ++ "/" ++ getLayerDirectory .entity info packageName
  | .repository => srcMainJava ++ "/" ++ getLayerDirectory .repository info packageName
  | .service => srcMainJava ++ "/" ++ getLayerDirectory .service info packageName
  | .controller => srcMainJava ++ "/" ++ getLayerDirectory .controller info packageName
  | .dtoRequest => srcMainJava ++ "/" ++ getLayerDirectory .dto info packageName ++ "/" ++ "request"
  | .dtoResponse => srcMainJava ++ "/" ++ getLayerDirectory .dto info packageName ++ "/" ++ "response"

/-- `file_path.relative_to(project_root)` with the absolute-path fallback of
lines 1036-1041: strip the root prefix when possible, otherwise record the
path unchanged. -/
def pathRelativeTo (projectRoot filePath : String) : String :=
  if strStartsWith filePath (projectRoot ++ "/") then strDrop filePath (projectRoot.length + 1)
  else filePath

/-- `_save_files_to_learned_structure(generated_files, project_info,
package_name)` (lines 998-1043): for each non-empty layer entry, compute the
layer directory, write every file (overwriting unconditionally), and collect
the written paths relative to the project root when possible. Returns the
collected path list and the updated file system. -/
def saveFilesToLearnedStructure
    (generatedFiles : List (GenKey × List (String × String)))
    (info : ProjectInfo) (packageName srcMainJava projectRoot : String)
    (fs : Fs) : List String × Fs :=
  generatedFiles.foldl
    (fun acc entry =>
      if entry.2 = [] then acc
      else
        let layerPath := layerPathFor entry.1 info packageName srcMainJava
        entry.2.foldl
          (fun acc2 fc =>
            let filePath := layerPath ++ "/" ++ fc.1
            (acc2.1 ++ [pathRelativeTo projectRoot filePath], fsWrite acc2.2 filePath fc.2))
          acc)
    ([], fs)

/-- The `generated_files` dictionary of `handle_generate_crud_module`
(lines 171-200): six singleton entries, one per unit, in insertion order. -/
def generatedFilesFor (entityName : String) (fields : List FieldSpec)
    (packageName : String) : List (GenKey × List (String × String)) :=
  [ (.entity, [(entityName ++ ".java", generateEntityClass entityName fields packageName)]),
    (.repository, [(entityName ++ "Repository.java", generateRepositoryInterface entityName packageName)]),
    (.service, [(entityName ++ "Service.java", generateServiceClass entityName packageName)]),
    (.controller, [(entityName ++ "Controller.java", generateControllerClass entityName packageName)]),
    (.dtoRequest, [("Create" ++ entityName ++ "Request.java", generateRequestDto entityName fields packageName)]),
    (.dtoResponse, [(entityName ++ "Response.java", generateResponseDto entityName fields packageName)]) ]

/-- The tool-call arguments of `generate_crud_module`; every key may be
absent. The tool schema (lines 48-51) declares `entity_name` and `fields`
required, but the handler reads them with defaulting `.get` calls. -/
structure Arguments where
  entityName : Option String
  fields : Option (List FieldSpec)
  projectPath : Option String
  packageName : Option String
deriving Repr

/-- The parts of the handler's success dictionary (lines 213-220) that the
specification's contracts are about. -/
structure CrudResult where
  status : String
  files : List String
  packageName : String
  components : List String
deriving DecidableEq, Repr

/-- `handle_generate_crud_module(arguments)` (lines 156-220). The file walk of
`_analyze_project_structure` is abstracted into `tree` (the `.java` files
under `src_main_java` in walk order); `srcMainJava` is the discovered source
directory. Python truthiness makes an absent and an empty `package_name`
override both fall back to the analyzed base package. -/
def handleGenerateCrudModule (args : Arguments) (tree : List JavaFile)
    (srcMainJava : String) (fs : Fs) : CrudResult × Fs :=
  let entityName := args.entityName.getD ""
  let fields := args.fields.getD []
  let projectPath := args.projectPath.getD "."
  let info := analyzeProjectStructure tree
  let packageName :=
    match args.packageName with
    | none => info.basePackage
    | some p => if p = "" then info.basePackage else p
  let generatedFiles := generatedFilesFor entityName fields packageName
  let saved := saveFilesToLearnedStructure generatedFiles info packageName srcMainJava projectPath fs
  ({ status := "success", files := saved.1, packageName := packageName,
     components := ["Entity", "Repository", "Service", "Controller", "DTOs"] },
   saved.2)

/-! Auxiliary definitions used by the verification theorems: a
specification-side reading of claim C1's directory resolution, a
longest-common-prefix predicate, decomposed forms of the placement fold, and
concrete scenario inputs. -/

/-- Specification-side reading of the per-layer directory resolution of claim
C1: the most frequent entry of the raw, duplicates-admitting observation list
(ties broken by first occurrence), with the synthesized default for a layer
without observations. To be compared against `getLayerDirectory`, which
consumes the deduplicated accumulated list. -/
def specClaimDirectory (observedDirs : List String) (packageName : String) (layer : Layer) : String :=
  match pyMostCommon observedDirs with
  | some d => d
  | none => replaceChar packageName '.' '/' ++ "/" ++ layer.key

/-- `c` is the longest common prefix of the lists in `ls`. -/
def IsLongestCommonPrefix (c : List String) (ls : List (List String)) : Prop :=
  (∀ l ∈ ls, c <+: l) ∧ ∀ c2, (∀ l ∈ ls, c2 <+: l) → c2 <+: c

/-- Sequential overwriting of a list of (path, content) writes. -/
def writeAll (ws : List (String × String)) (fs : Fs) : Fs :=
  ws.foldl (fun fs w => fsWrite fs w.1 w.2) fs

/-- The last content written for path `p` by the write list, if any. -/
def lastWrite (p : String) : List (String × String) → Option String
  | [] => none
  | w :: ws =>
    match lastWrite p ws with
    | some v => some v
    | none => if p = w.1 then some w.2 else none

/-- The (path, content) writes performed by
`_save_files_to_learned_structure`, in order. -/
def plannedWrites (generatedFiles : List (GenKey × List (String × String)))
    (info : ProjectInfo) (packageName srcMainJava : String) : List (String × String) :=
  generatedFiles.foldr
    (fun entry acc =>
      entry.2.map
        (fun fc => (layerPathFor entry.1 info packageName srcMainJava ++ "/" ++ fc.1, fc.2)) ++ acc)
    []

/-- The path list returned by `_save_files_to_learned_structure`. -/
def plannedPaths (generatedFiles : List (GenKey × List (String × String)))
    (info : ProjectInfo) (packageName srcMainJava projectRoot : String) : List String :=
  (plannedWrites generatedFiles info packageName srcMainJava).map
    (fun w => pathRelativeTo projectRoot w.1)

/-- A walk observing the repository layer in directory `"b"` first. -/
def dirBFile : JavaFile := ⟨"b", "package com.acme.dao;\npublic class BravoStore"⟩

/-- A second observation of the repository layer, in directory `"a"`. -/
def dirAFile1 : JavaFile := ⟨"a", "package com.acme.dao;\npublic class AlphaStore"⟩

/-- A third observation of the repository layer, again in directory `"a"`. -/
def dirAFile2 : JavaFile := ⟨"a", "package com.acme.dao;\npublic class AlphaTwoStore"⟩

/-- A successfully read file that no classification rule matches: its package,
class name and `@NotNull` annotation fit no layer rule. -/
def utilFile : JavaFile := ⟨"com/acme/util", "package com.acme.util;\n@NotNull\npublic class StringHelper"⟩

/-- A MyBatis-signalling file (mapper annotation), classified repository. -/
def mapperFile : JavaFile := ⟨"com/acme/mapper", "package com.acme.mapper;\n@Mapper\npublic interface UserMapper"⟩

/-- A JPA-signalling file (entity annotation), classified entity. -/
def entityAnnotatedFile : JavaFile := ⟨"com/acme/entity", "package com.acme.entity;\n@Entity\npublic class User"⟩

/-- Observed namespace `com.acme.app.entity`. -/
def acmeEntityFile : JavaFile := ⟨"com/acme/app/entity", "package com.acme.app.entity;\n@Entity\npublic class Customer"⟩

/-- Observed namespace `com.acme.app.service`. -/
def acmeServiceFile : JavaFile := ⟨"com/acme/app/service", "package com.acme.app.service;\npublic class CustomerService"⟩

/-- Observed namespace `com.acme.app.controller.v2`. -/
def acmeControllerFile : JavaFile := ⟨"com/acme/app/controller/v2", "package com.acme.app.controller.v2;\npublic class CustomerController"⟩

/-- A `generate_crud_module` request whose `entity_name` key is absent. -/
def missingEntityArgs : Arguments :=
  { entityName := none, fields := some [], projectPath := none, packageName := none }

/-- Analysis state holding the repository-layer type-name observations of the
suffix-majority scenario (as posed, with a duplicated name). -/
def repoNamingInfo : ProjectInfo :=
  { initialProjectInfo with
      layerPatterns :=
        initialProjectInfo.layerPatterns.set .repository
          { dirs := [], naming := ["OrderRepository", "OrderRepository", "OrderDao"], annotations := [] } }

/-- Analysis state in which every layer has observations but none of the
observed type names carries a recognized suffix. -/
def unsuffixedInfo : ProjectInfo :=
  { initialProjectInfo with
      layerPatterns :=
        { entity := { dirs := [], naming := ["Customer"], annotations := [] }
          repository := { dirs := [], naming := ["OrderStore"], annotations := [] }
          service := { dirs := [], naming := ["FooManager"], annotations := [] }
          controller := { dirs := [], naming := ["BarHandler"], annotations := [] }
          dto := emptyPatterns } }

example : identifyLayer "com.acme.app.repository.user" "UserDao" [] "" = some .repository := by decide

example : pyMostCommon ["a", "b", "b"] = some "b" := by decide

example :
    (handleGenerateCrudModule
      { entityName := some "Invoice", fields := some [], projectPath := none, packageName := some "com.acme.billing" }
      [] "src/main/java" fsEmpty).1.files =
    ["src/main/java/com/acme/billing/entity/Invoice.java",
     "src/main/java/com/acme/billing/repository/InvoiceRepository.java",
     "src/main/java/com/acme/billing/service/InvoiceService.java",
     "src/main/java/com/acme/billing/controller/InvoiceController.java",
     "src/main/java/com/acme/billing/dto/request/CreateInvoiceRequest.java",
     "src/main/java/com/acme/billing/dto/response/InvoiceResponse.java"] := by decide

example :
    (parseJavaContent "package com.acme.app.entity;\n@Entity\npublic class Customer") =
      { packageName := some "com.acme.app.entity", className := some "Customer",
        annotations := ["@Entity"], packageLines := ["com.acme.app.entity"] } := by decide

example :
    (analyzeProjectStructure [acmeEntityFile, acmeServiceFile, acmeControllerFile]).basePackage
      = "com.acme.app" := by decide

example :
    ((analyzeProjectStructure [dirBFile, dirAFile1, dirAFile2]).layerPatterns.get .repository).dirs
      = ["b", "a"] := by decide

example : (analyzeProjectStructure [mapperFile]).frameworkInfo.orm = "mybatis" := by decide

example : (analyzeProjectStructure [mapperFile, entityAnnotatedFile]).frameworkInfo.orm = "jpa" := by decide

example : (inferProjectConventions repoNamingInfo).conventions.repositorySuffix = "Repository" := by decide

example : (inferProjectConventions initialProjectInfo).conventions.entitySuffix = "Entity" := by decide

example : (learnFromJavaFile utilFile initialProjectInfo).frameworkInfo = initialProjectInfo.frameworkInfo := by decide

/-! Helper lemmas. -/

/-- `pyMostCommonGo` keeps its current best when nothing beats it. -/
theorem pyMostCommonGo_const (xs : List String) (ys : List String) :
    ∀ b, (∀ y ∈ ys, ¬ xs.count b < xs.count y) → pyMostCommonGo xs b ys = b := by
  induction ys with
  | nil => intro b _; rfl
  | cons y ys ih =>
    intro b hb
    unfold pyMostCommonGo
    rw [if_neg (hb y (List.mem_cons_self y ys))]
    exact ih b (fun z hz => hb z (List.mem_cons_of_mem y hz))

/-- On a duplicate-free list, `pyMostCommon` returns the first element. -/
theorem pyMostCommon_nodup_head (l : List String) (hn : l.Nodup) (hne : l ≠ []) :
    pyMostCommon l = some (l.headD "") := by
  match l, hne with
  | x :: rest, _ =>
    unfold pyMostCommon
    rw [List.headD_cons]
    refine congrArg some (pyMostCommonGo_const _ _ _ ?_)
    intro y hy
    rw [List.count_eq_one_of_mem hn (List.mem_cons_self x rest),
      List.count_eq_one_of_mem hn (List.mem_cons_of_mem x hy)]
    omega

/-- When all elements of a nonempty list are equal to `c`, `pyMostCommon`
returns `c`. -/
theorem pyMostCommon_all_eq (l : List String) (c : String) (hne : l ≠ [])
    (h : ∀ y ∈ l, y = c) : pyMostCommon l = some c := by
  match l, hne with
  | x :: rest, _ =>
    unfold pyMostCommon
    refine congrArg some ?_
    rw [pyMostCommonGo_const _ _ _ ?_]
    · exact h x (List.mem_cons_self x rest)
    · intro y hy
      rw [h y (List.mem_cons_of_mem x hy), h x (List.mem_cons_self x rest)]
      omega

/-- `insertIfAbsent` preserves duplicate-freedom. -/
theorem insertIfAbsent_nodup {l : List String} {x : String} (h : l.Nodup) :
    (insertIfAbsent l x).Nodup := by
  unfold insertIfAbsent
  split
  · exact h
  · next hx => simp [List.nodup_append, h, hx]

/-- Reading back the layer just written. -/
theorem LayerPatternsMap.get_set_self (m : LayerPatternsMap) (l : Layer) (p : LayerPatterns) :
    (m.set l p).get l = p := by
  cases l <;> rfl

/-- Reading a different layer than the one written. -/
theorem LayerPatternsMap.get_set_other (m : LayerPatternsMap) {l l2 : Layer} (p : LayerPatterns)
    (h : l2 ≠ l) : (m.set l p).get l2 = m.get l2 := by
  cases l <;> cases l2 <;> first | rfl | exact absurd rfl h

/-! Claim theorems. -/

set_option maxHeartbeats 1000000 in
/-- C5: the layer classifier is a pure function of (namespace, type name,
annotations) evaluated as an ordered cascade — namespace keyword rule first,
then type-name suffix rule, then annotation rule — and on namespace
`com.acme.app.repository.user` with type name `UserDao` and no annotations it
returns `repository` through the namespace rule (the suffix rule, which would
also match, is not reached). -/
theorem claim5_classifier_cascade :
    (∀ (packageName className : String) (annotationTokens : List String) (content : String),
        identifyLayer packageName className annotationTokens content =
          classifyCascade packageName className annotationTokens)
    ∧ identifyLayer "com.acme.app.repository.user" "UserDao" [] "" = some .repository
    ∧ layerByPackage (pyLower "com.acme.app.repository.user") = some .repository
    ∧ layerByClassName (pyLower "UserDao") = some .repository := by
  refine ⟨?_, by decide, by decide, by decide⟩
  intro p c a ct
  simp only [identifyLayer, classifyCascade, layerByPackage, layerByClassName]
  split_ifs <;> rfl

/-- C6: for every request, emission produces exactly 6 units — entity,
repository, service, controller, create-request DTO, response DTO — named
`{Entity}.java`, `{Entity}Repository.java`, `{Entity}Service.java`,
`{Entity}Controller.java`, `Create{Entity}Request.java`,
`{Entity}Response.java`, independently of the field list (in particular for
every non-empty field list). -/
theorem claim6_fixed_fanout :
    ∀ (entityName : String) (fields : List FieldSpec) (packageName : String),
      (generatedFilesFor entityName fields packageName).length = 6
      ∧ (generatedFilesFor entityName fields packageName).map (fun entry => entry.2.map Prod.fst) =
          [[entityName ++ ".java"], [entityName ++ "Repository.java"],
           [entityName ++ "Service.java"], [entityName ++ "Controller.java"],
           ["Create" ++ entityName ++ "Request.java"], [entityName ++ "Response.java"]] := by
  intro e fields p
  exact ⟨rfl, rfl⟩

/-- C10: a request whose `package_name` is present but equal to `""` behaves
exactly as if `package_name` were absent — the whole handler result (emitted
contents, written paths, reported package) is identical, the returned package
is the analyzed base package, and on an empty project tree that base package
is the default `com.example`. -/
theorem claim10_empty_package_override :
    ∀ (entityName : Option String) (fields : Option (List FieldSpec))
      (projectPath : Option String) (tree : List JavaFile) (srcMainJava : String) (fs : Fs),
      handleGenerateCrudModule ⟨entityName, fields, projectPath, some ""⟩ tree srcMainJava fs =
        handleGenerateCrudModule ⟨entityName, fields, projectPath, none⟩ tree srcMainJava fs
      ∧ (handleGenerateCrudModule ⟨entityName, fields, projectPath, some ""⟩ tree srcMainJava fs).1.packageName =
          (analyzeProjectStructure tree).basePackage
      ∧ (handleGenerateCrudModule ⟨entityName, fields, projectPath, some ""⟩ [] srcMainJava fs).1.packageName =
          "com.example" := by
  intro e f pp tree s fs
  exact ⟨rfl, rfl, rfl⟩

/-- C3 (evaluation at the failing input): a `generate_crud_module` request
with no `entity_name` is not rejected — the handler reports success, returns
6 written files, and writes a file named `.java` derived from the empty
entity name, even though the tool schema declares `entity_name` required. -/
theorem claim3_no_rejection_evaluation :
    (handleGenerateCrudModule missingEntityArgs [] "src/main/java" fsEmpty).1.status = "success"
    ∧ (handleGenerateCrudModule missingEntityArgs [] "src/main/java" fsEmpty).1.files =
        ["src/main/java/com/example/entity/.java",
         "src/main/java/com/example/repository/Repository.java",
         "src/main/java/com/example/service/Service.java",
         "src/main/java/com/example/controller/Controller.java",
         "src/main/java/com/example/dto/request/CreateRequest.java",
         "src/main/java/com/example/dto/response/Response.java"]
    ∧ (handleGenerateCrudModule missingEntityArgs [] "src/main/java" fsEmpty).2
        "src/main/java/com/example/entity/.java" ≠ none := by
  refine ⟨rfl, by decide, by decide⟩

/-- C1 (counterexample): with repository-layer observations in directories
`b`, `a`, `a` (in walk order), the accumulated directory list is the
deduplicated `["b", "a"]` — not the duplicates-admitting `["b", "a", "a"]`
the claim describes — and the resolved directory is `"b"`, not the
most-frequent-with-duplicates answer `"a"` required by the claim
(computed by `specClaimDirectory`). -/
theorem claim1_counterexample :
    ((analyzeProjectStructure [dirBFile, dirAFile1, dirAFile2]).layerPatterns.get .repository).dirs
        = ["b", "a"]
    ∧ ["b", "a"] ≠ ["b", "a", "a"]
    ∧ getLayerDirectory .repository (analyzeProjectStructure [dirBFile, dirAFile1, dirAFile2])
        "com.example" = "b"
    ∧ specClaimDirectory ["b", "a", "a"] "com.example" .repository = "a"
    ∧ ("b" : String) ≠ "a" := by
  refine ⟨by decide, by decide, by decide, by decide, by decide⟩

/-- C2 (counterexample): a successfully-read file that classifies to `None`
(package `com.acme.util`, class `StringHelper`, annotation `@NotNull`)
contributes nothing to the framework signals — the validation signal stays
`unknown` — although scanning it as the claim describes would set the
validation signal. -/
theorem claim2_counterexample :
    (learnFromJavaFile utilFile initialProjectInfo).frameworkInfo = initialProjectInfo.frameworkInfo
    ∧ identifyLayer "com.acme.util" "StringHelper" ["@NotNull"] utilFile.content = none
    ∧ (analyzeFrameworkInfo ["@NotNull"] utilFile.content initialProjectInfo.frameworkInfo).validation
        = "javax.validation"
    ∧ initialProjectInfo.frameworkInfo.validation = "unknown"
    ∧ ("javax.validation" : String) ≠ "unknown" := by
  refine ⟨by decide, by decide, by decide, by decide, by decide⟩

/-- C7 (counterexample): for an entity layer with zero observations, the
resolved entity suffix is the initialized default `"Entity"`, not the empty
suffix `""` stated by the claim — both in the resolved conventions and
through `_get_class_suffix`. -/
theorem claim7_counterexample :
    (inferProjectConventions initialProjectInfo).conventions.entitySuffix = "Entity"
    ∧ getClassSuffix .entity (inferProjectConventions initialProjectInfo) = "Entity"
    ∧ ("Entity" : String) ≠ "" := by
  refine ⟨by decide, by decide, by decide⟩

/-- C8 (counterexample): the ORM signal set to `mybatis` by an earlier file
is overwritten to `jpa` by a later JPA-signalling file in the same
aggregation pass — the first match does not win. -/
theorem claim8_counterexample :
    (analyzeProjectStructure [mapperFile]).frameworkInfo.orm = "mybatis"
    ∧ (analyzeProjectStructure [mapperFile, entityAnnotatedFile]).frameworkInfo.orm = "jpa"
    ∧ ("jpa" : String) ≠ "mybatis" := by
  refine ⟨by decide, by decide, by decide⟩

/-- C8 (amended): each scanned file's framework analysis overwrites the ORM
signal — within a single file, JPA-like annotations take precedence over
mapper/mybatis markers, and a file with neither signal leaves the stored kind
unchanged; hence across a pass the last signal-bearing file wins, not the
first. -/
theorem claim8_amended :
    ∀ (annotationTokens : List String) (content : String) (info : FrameworkInfo),
      (jpaSignal annotationTokens = true →
        (analyzeFrameworkInfo annotationTokens content info).orm = "jpa")
      ∧ (jpaSignal annotationTokens = false → mybatisSignal annotationTokens content = true →
        (analyzeFrameworkInfo annotationTokens content info).orm = "mybatis")
      ∧ (jpaSignal annotationTokens = false → mybatisSignal annotationTokens content = false →
        (analyzeFrameworkInfo annotationTokens content info).orm = info.orm) := by
  intro anns content info
  refine ⟨?_, ?_, ?_⟩
  · intro h
    simp only [analyzeFrameworkInfo, h, if_true, ite_true]
    repeat' split
    all_goals rfl
  · intro h1 h2
    simp only [analyzeFrameworkInfo, h1, h2, if_true, if_false, ite_true, ite_false,
      Bool.false_eq_true]
    repeat' split
    all_goals rfl
  · intro h1 h2
    simp only [analyzeFrameworkInfo, h1, h2, if_true, if_false, ite_true, ite_false,
      Bool.false_eq_true]
    repeat' split
    all_goals rfl

/-- Witness for C8 (amended): the three signal combinations at concrete
annotation lists. -/
theorem claim8_amended_witness :
    (analyzeFrameworkInfo ["@Entity"] "" initialProjectInfo.frameworkInfo).orm = "jpa"
    ∧ (analyzeFrameworkInfo ["@Mapper"] "" initialProjectInfo.frameworkInfo).orm = "mybatis"
    ∧ (analyzeFrameworkInfo [] "" initialProjectInfo.frameworkInfo).orm =
        initialProjectInfo.frameworkInfo.orm :=
  ⟨(claim8_amended ["@Entity"] "" initialProjectInfo.frameworkInfo).1 (by decide),
   (claim8_amended ["@Mapper"] "" initialProjectInfo.frameworkInfo).2.1 (by decide) (by decide),
   (claim8_amended [] "" initialProjectInfo.frameworkInfo).2.2 (by decide) (by decide)⟩

/-- C2 (amended): framework-signal scanning runs only for files that are
successfully read, yield both a *non-empty* package name and a *non-empty*
class name (the `if package_name and class_name:` guard of line 844 is Python
truthiness, so an empty parsed string also skips the file), and are
classified into a layer; for such files the signals are updated by
`_analyze_framework_info`, and every other file — including one with a bare
`package ;` line and a JPA annotation — leaves the framework signals
untouched. -/
theorem claim2_amended :
    (∀ (file : JavaFile) (info : ProjectInfo),
        (parseJavaContent file.content).packageName = none →
          (learnFromJavaFile file info).frameworkInfo = info.frameworkInfo)
    ∧ (∀ (file : JavaFile) (info : ProjectInfo),
        (parseJavaContent file.content).className = none →
          (learnFromJavaFile file info).frameworkInfo = info.frameworkInfo)
    ∧ (∀ (file : JavaFile) (info : ProjectInfo),
        (parseJavaContent file.content).packageName = some "" →
          (learnFromJavaFile file info).frameworkInfo = info.frameworkInfo)
    ∧ (∀ (file : JavaFile) (info : ProjectInfo),
        (parseJavaContent file.content).className = some "" →
          (learnFromJavaFile file info).frameworkInfo = info.frameworkInfo)
    ∧ (∀ (file : JavaFile) (info : ProjectInfo) (pkg cls : String),
        (parseJavaContent file.content).packageName = some pkg →
        (parseJavaContent file.content).className = some cls →
        identifyLayer pkg cls (parseJavaContent file.content).annotations file.content = none →
          (learnFromJavaFile file info).frameworkInfo = info.frameworkInfo)
    ∧ (∀ (file : JavaFile) (info : ProjectInfo) (pkg cls : String) (layer : Layer),
        (parseJavaContent file.content).packageName = some pkg →
        (parseJavaContent file.content).className = some cls →
        pkg ≠ "" → cls ≠ "" →
        identifyLayer pkg cls (parseJavaContent file.content).annotations file.content = some layer →
          (learnFromJavaFile file info).frameworkInfo =
            analyzeFrameworkInfo (parseJavaContent file.content).annotations file.content
              info.frameworkInfo)
    ∧ (learnFromJavaFile ⟨"x", "package ;\n@Entity\npublic class Foo"⟩
          initialProjectInfo).frameworkInfo = initialProjectInfo.frameworkInfo := by
  refine ⟨?_, ?_, ?_, ?_, ?_, ?_, by decide⟩
  · intro file info h
    simp only [learnFromJavaFile, h]
  · intro file info h
    cases hp : (parseJavaContent file.content).packageName with
    | none => simp only [learnFromJavaFile, hp]
    | some pkg => simp only [learnFromJavaFile, hp, h]
  · intro file info h
    cases hc : (parseJavaContent file.content).className with
    | none => simp only [learnFromJavaFile, h, hc]
    | some cls =>
      simp only [learnFromJavaFile, h, hc]
      rw [if_neg (by simp)]
  · intro file info h
    cases hp : (parseJavaContent file.content).packageName with
    | none => simp only [learnFromJavaFile, hp]
    | some pkg =>
      simp only [learnFromJavaFile, hp, h]
      rw [if_neg (by simp)]
  · intro file info pkg cls h1 h2 h3
    simp only [learnFromJavaFile, h1, h2]
    by_cases hg : pkg ≠ "" ∧ cls ≠ ""
    · rw [if_pos hg]
      simp only [h3]
    · rw [if_neg hg]
  · intro file info pkg cls layer h1 h2 hp hc h3
    simp only [learnFromJavaFile, h1, h2]
    rw [if_pos ⟨hp, hc⟩]
    simp only [h3]

/-- Witness for C2 (amended): a file without a package line, a file whose
`package ;` line parses to the empty (falsy) package name, an unclassified
file, and a classified file. -/
theorem claim2_amended_witness :
    (learnFromJavaFile ⟨"x", "public class Widget"⟩ initialProjectInfo).frameworkInfo =
        initialProjectInfo.frameworkInfo
    ∧ (learnFromJavaFile ⟨"x", "package ;\n@Entity\npublic class Widget"⟩
          initialProjectInfo).frameworkInfo = initialProjectInfo.frameworkInfo
    ∧ (learnFromJavaFile utilFile initialProjectInfo).frameworkInfo =
        initialProjectInfo.frameworkInfo
    ∧ (learnFromJavaFile entityAnnotatedFile initialProjectInfo).frameworkInfo =
        analyzeFrameworkInfo (parseJavaContent entityAnnotatedFile.content).annotations
          entityAnnotatedFile.content initialProjectInfo.frameworkInfo :=
  ⟨claim2_amended.1 ⟨"x", "public class Widget"⟩ initialProjectInfo (by decide),
   claim2_amended.2.2.1 ⟨"x", "package ;\n@Entity\npublic class Widget"⟩ initialProjectInfo
     (by decide),
   claim2_amended.2.2.2.2.1 utilFile initialProjectInfo "com.acme.util" "StringHelper"
     (by decide) (by decide) (by decide),
   claim2_amended.2.2.2.2.2.1 entityAnnotatedFile initialProjectInfo "com.acme.entity" "User"
     .entity (by decide) (by decide) (by decide) (by decide) (by decide)⟩

/-- Evaluating a sequence of writes: the last write to `p` wins, otherwise
the original file system answers. -/
theorem writeAll_apply (ws : List (String × String)) :
    ∀ (fs : Fs) (p : String),
      writeAll ws fs p = match lastWrite p ws with | some v => some v | none => fs p := by
  induction ws with
  | nil => intro fs p; rfl
  | cons w ws ih =>
    intro fs p
    show writeAll ws (fsWrite fs w.1 w.2) p = _
    rw [ih]
    cases h : lastWrite p ws with
    | some v => simp only [lastWrite, h]
    | none =>
      simp only [lastWrite, h, fsWrite]
      by_cases hp : p = w.1
      · simp [hp]
      · simp [hp]

/-- Writing the same write list twice produces the same file system as
writing it once. -/
theorem writeAll_idem (ws : List (String × String)) (fs : Fs) :
    writeAll ws (writeAll ws fs) = writeAll ws fs := by
  funext p
  rw [writeAll_apply, writeAll_apply]
  cases h : lastWrite p ws <;> simp [h]

/-- The per-layer inner fold of `_save_files_to_learned_structure`, expressed
through `writeAll` and a path map. -/
theorem saveFiles_inner_eq (files : List (String × String)) (layerPath root : String) :
    ∀ (acc : List String × Fs),
      files.foldl
        (fun acc2 fc =>
          (acc2.1 ++ [pathRelativeTo root (layerPath ++ "/" ++ fc.1)],
           fsWrite acc2.2 (layerPath ++ "/" ++ fc.1) fc.2)) acc
      = (acc.1 ++ files.map (fun fc => pathRelativeTo root (layerPath ++ "/" ++ fc.1)),
         writeAll (files.map (fun fc => (layerPath ++ "/" ++ fc.1, fc.2))) acc.2) := by
  induction files with
  | nil => intro acc; simp [writeAll]
  | cons f fsx ih =>
    intro acc
    rw [List.foldl_cons, ih]
    simp [writeAll, List.append_assoc]

/-- `_save_files_to_learned_structure` decomposed: it returns the planned
path list and applies the planned writes in order. -/
theorem saveFiles_eq (generatedFiles : List (GenKey × List (String × String)))
    (info : ProjectInfo) (packageName srcMainJava projectRoot : String) :
    ∀ (fs : Fs),
      saveFilesToLearnedStructure generatedFiles info packageName srcMainJava projectRoot fs =
        (plannedPaths generatedFiles info packageName srcMainJava projectRoot,
         writeAll (plannedWrites generatedFiles info packageName srcMainJava) fs) := by
  suffices h : ∀ (acc : List String × Fs),
      generatedFiles.foldl
        (fun acc entry =>
          if entry.2 = [] then acc
          else
            entry.2.foldl
              (fun acc2 fc =>
                (acc2.1 ++ [pathRelativeTo projectRoot
                    (layerPathFor entry.1 info packageName srcMainJava ++ "/" ++ fc.1)],
                 fsWrite acc2.2
                   (layerPathFor entry.1 info packageName srcMainJava ++ "/" ++ fc.1) fc.2))
              acc) acc
      = (acc.1 ++ plannedPaths generatedFiles info packageName srcMainJava projectRoot,
         writeAll (plannedWrites generatedFiles info packageName srcMainJava) acc.2) by
    intro fs
    exact h ([], fs)
  induction generatedFiles with
  | nil => intro acc; simp [plannedPaths, plannedWrites, writeAll]
  | cons entry rest ih =>
    intro acc
    rw [List.foldl_cons]
    by_cases he : entry.2 = []
    · rw [if_pos he, ih]
      simp [plannedPaths, plannedWrites, he]
    · rw [if_neg he, saveFiles_inner_eq, ih]
      simp only [plannedPaths, plannedWrites, List.foldr_cons, List.map_append,
        List.append_assoc, writeAll, List.foldl_append, List.map_map]
      rfl

/-- C9: placing the same generated files with the same analysis state twice
in a row is idempotent — the second call overwrites every file
unconditionally, returning the same ordered path list and leaving the same
final file contents as the first call. -/
theorem claim9_idempotent_place
    (generatedFiles : List (GenKey × List (String × String)))
    (info : ProjectInfo) (packageName srcMainJava projectRoot : String) (fs : Fs) :
    (saveFilesToLearnedStructure generatedFiles info packageName srcMainJava projectRoot
        (saveFilesToLearnedStructure generatedFiles info packageName srcMainJava projectRoot fs).2).1
      = (saveFilesToLearnedStructure generatedFiles info packageName srcMainJava projectRoot fs).1
    ∧ (saveFilesToLearnedStructure generatedFiles info packageName srcMainJava projectRoot
        (saveFilesToLearnedStructure generatedFiles info packageName srcMainJava projectRoot fs).2).2
      = (saveFilesToLearnedStructure generatedFiles info packageName srcMainJava projectRoot fs).2 := by
  simp only [saveFiles_eq]
  exact ⟨trivial, writeAll_idem _ _⟩

/-- The running minimum is bounded by its initial value. -/
theorem foldlMin_le_init (ls : List Nat) : ∀ init : Nat, ls.foldl min init ≤ init := by
  induction ls with
  | nil => intro init; exact le_rfl
  | cons x ls ih => intro init; exact le_trans (ih (min init x)) (min_le_left _ _)

/-- The running minimum is bounded by every traversed value. -/
theorem foldlMin_le_mem (ls : List Nat) : ∀ init : Nat, ∀ x ∈ ls, ls.foldl min init ≤ x := by
  induction ls with
  | nil => intro init x hx; cases hx
  | cons y ls ih =>
    intro init x hx
    rcases List.mem_cons.mp hx with h | h
    · subst h; exact le_trans (foldlMin_le_init ls _) (min_le_right _ _)
    · exact ih (min init y) x h

/-- The running minimum is attained at the initial value or at some element. -/
theorem foldlMin_attained (ls : List Nat) : ∀ init : Nat,
    ls.foldl min init = init ∨ ∃ x ∈ ls, ls.foldl min init = x := by
  induction ls with
  | nil => intro init; exact Or.inl rfl
  | cons y ls ih =>
    intro init
    rw [List.foldl_cons]
    rcases ih (min init y) with h | ⟨x, hx, hfx⟩
    · rcases le_total init y with hiy | hyi
      · left; rw [h, min_eq_left hiy]
      · right; exact ⟨y, List.mem_cons_self y ls, by rw [h, min_eq_right hyi]⟩
    · right; exact ⟨x, List.mem_cons_of_mem y hx, hfx⟩

/-- `minLength` bounds the length of every member. -/
theorem minLength_le (ps : List (List String)) (l : List String) (h : l ∈ ps) :
    minLength ps ≤ l.length := by
  match ps, h with
  | p :: ps2, h =>
    show ps2.foldl (fun m q => min m q.length) p.length ≤ l.length
    rw [← List.foldl_map List.length min ps2 p.length]
    rcases List.mem_cons.mp h with h1 | h1
    · subst h1; exact foldlMin_le_init _ _
    · exact foldlMin_le_mem _ _ _ (List.mem_map_of_mem List.length h1)

/-- `minLength` of a nonempty family is the length of one of its members. -/
theorem minLength_attained (ps : List (List String)) (hne : ps ≠ []) :
    ∃ l ∈ ps, l.length ≤ minLength ps := by
  match ps, hne with
  | p :: ps2, _ =>
    have heq : minLength (p :: ps2) = (ps2.map List.length).foldl min p.length := by
      show ps2.foldl (fun m q => min m q.length) p.length = _
      rw [List.foldl_map]
    rcases foldlMin_attained (ps2.map List.length) p.length with h | ⟨x, hx, hfx⟩
    · exact ⟨p, List.mem_cons_self _ _, by rw [heq, h]⟩
    · rcases List.mem_map.mp hx with ⟨q, hq, hql⟩
      exact ⟨q, List.mem_cons_of_mem _ hq, by rw [heq, hfx, ← hql]⟩

/-- A list whose members all equal `c` satisfies `allSame`. -/
theorem allSame_of (ys : List String) (c : String) (h : ∀ y ∈ ys, y = c) :
    allSame ys = true := by
  match ys with
  | [] => rfl
  | z :: zs =>
    show zs.all (fun y => y = z) = true
    rw [List.all_eq_true]
    intro y hy
    have h1 : y = c := h y (List.mem_cons_of_mem _ hy)
    have h2 : z = c := h z (List.mem_cons_self _ _)
    simp [h1, h2]

/-- Under `allSame`, every member equals the head. -/
theorem allSame_head_eq (ys : List String) (h : allSame ys = true) :
    ∀ y ∈ ys, y = ys.headD "" := by
  match ys with
  | [] => intro y hy; cases hy
  | z :: zs =>
    intro y hy
    rw [List.headD_cons]
    rcases List.mem_cons.mp hy with h1 | h1
    · exact h1
    · have h2 : zs.all (fun y => y = z) = true := h
      simpa using List.all_eq_true.mp h2 y h1

/-- The common-prefix loop produces a common prefix of all remaining
suffixes, given enough length everywhere. -/
theorem commonPartsFrom_prefix (ps : List (List String)) :
    ∀ (fuel i : Nat), (∀ l ∈ ps, i + fuel ≤ l.length) →
      ∀ l ∈ ps, commonPartsFrom ps fuel i <+: l.drop i := by
  intro fuel
  induction fuel with
  | zero => intro i _ l _; exact List.nil_prefix
  | succ fuel ih =>
    intro i hlen l hl
    simp only [commonPartsFrom]
    by_cases hsame : allSame (ps.map (fun parts => parts.getD i "")) = true
    · rw [if_pos hsame]
      have hil : i < l.length := by have := hlen l hl; omega
      rw [List.drop_eq_getElem_cons hil, List.cons_prefix_cons]
      have hmem : l.getD i "" ∈ ps.map (fun parts => parts.getD i "") :=
        List.mem_map_of_mem _ hl
      have hhead : l.getD i "" = (ps.map (fun parts => parts.getD i "")).headD "" :=
        allSame_head_eq _ hsame _ hmem
      refine ⟨?_, ?_⟩
      · rw [← hhead]
        exact List.getD_eq_getElem l "" hil
      · exact ih (i + 1) (fun l2 hl2 => by have := hlen l2 hl2; omega) l hl
    · rw [if_neg hsame]
      exact List.nil_prefix

/-- The common-prefix loop dominates every common prefix, given that some
member is short enough to be exhausted within the available fuel. -/
theorem commonPartsFrom_longest (ps : List (List String)) (hps : ps ≠ []) :
    ∀ (c : List String) (fuel i : Nat),
      (∃ l ∈ ps, l.length ≤ i + fuel) →
      (∀ l ∈ ps, c <+: l.drop i) → c <+: commonPartsFrom ps fuel i := by
  intro c
  induction c with
  | nil => intro fuel i _ _; exact List.nil_prefix
  | cons x xs ih =>
    intro fuel i hwit hpre
    obtain ⟨l0, hl0, hlen0⟩ := hwit
    have hfacts : ∀ l ∈ ps, i < l.length ∧ l.getD i "" = x ∧ xs <+: l.drop (i + 1) := by
      intro l hl
      have hp := hpre l hl
      have hil : i < l.length := by
        by_contra hle
        push_neg at hle
        rw [List.drop_eq_nil_of_le hle] at hp
        have := hp.length_le
        simp at this
      rw [List.drop_eq_getElem_cons hil, List.cons_prefix_cons] at hp
      exact ⟨hil, by rw [List.getD_eq_getElem l "" hil]; exact hp.1.symm, hp.2⟩
    have hfuel : 1 ≤ fuel := by
      have h0 := (hfacts l0 hl0).1
      omega
    match fuel, hfuel with
    | f + 1, _ =>
      simp only [commonPartsFrom]
      have hsame : allSame (ps.map (fun parts => parts.getD i "")) = true := by
        refine allSame_of _ x ?_
        intro y hy
        rcases List.mem_map.mp hy with ⟨l, hl, rfl⟩
        exact (hfacts l hl).2.1
      rw [if_pos hsame, List.cons_prefix_cons]
      constructor
      · obtain ⟨p, hp⟩ := List.exists_mem_of_ne_nil ps hps
        have h1 : p.getD i "" = (ps.map (fun parts => parts.getD i "")).headD "" :=
          allSame_head_eq _ hsame _ (List.mem_map_of_mem _ hp)
        rw [← h1]
        exact ((hfacts p hp).2.1).symm
      · exact ih f (i + 1) ⟨l0, hl0, by omega⟩ (fun l hl => (hfacts l hl).2.2)

/-- C4: the resolved base namespace comes from the longest common leading
segment sequence across all observed namespace strings — which are recorded
for every successfully-read file, classified or not — is accepted only with
at least 2 common segments (otherwise the default `com.example` placeholder
stays), and the observation set {com.acme.app.entity, com.acme.app.service,
com.acme.app.controller.v2} resolves to `com.acme.app`. -/
theorem claim4_base_namespace :
    (∀ packages : List String, packages ≠ [] →
        IsLongestCommonPrefix (commonPartsOf packages)
          (packages.map (fun pkg => splitOnChar '.' pkg)))
    ∧ (∀ packages : List String, packages ≠ [] →
        resolveBasePackage packages =
          if 2 ≤ (commonPartsOf packages).length then joinWith "." (commonPartsOf packages)
          else "com.example")
    ∧ (analyzeProjectStructure [acmeEntityFile, acmeServiceFile, acmeControllerFile]).basePackage
        = "com.acme.app"
    ∧ (∀ info : ProjectInfo,
        (learnFromJavaFile utilFile info).existingPackages =
          insertIfAbsent info.existingPackages "com.acme.util"
        ∧ identifyLayer "com.acme.util" "StringHelper" ["@NotNull"] utilFile.content = none) := by
  refine ⟨?_, ?_, by decide, ?_⟩
  · intro packages hne
    have hps : packages.map (fun pkg => splitOnChar '.' pkg) ≠ [] := by
      simpa using hne
    constructor
    · intro l hl
      have h := commonPartsFrom_prefix (packages.map (fun pkg => splitOnChar '.' pkg))
        (minLength (packages.map (fun pkg => splitOnChar '.' pkg))) 0
        (fun l2 hl2 => by simpa using minLength_le _ l2 hl2) l hl
      simpa [commonPartsOf] using h
    · intro c2 hc2
      have h := commonPartsFrom_longest (packages.map (fun pkg => splitOnChar '.' pkg)) hps c2
        (minLength (packages.map (fun pkg => splitOnChar '.' pkg))) 0
        (by
          rcases minLength_attained _ hps with ⟨l, hl, hlen⟩
          exact ⟨l, hl, by simpa using hlen⟩)
        (fun l hl => by simpa using hc2 l hl)
      simpa [commonPartsOf] using h
  · intro packages hne
    unfold resolveBasePackage
    rw [if_pos hne]
  · intro info
    exact ⟨rfl, by decide⟩

/-- Witness for C4, discharging its hypotheses at a concrete namespace set. -/
theorem claim4_witness :
    IsLongestCommonPrefix (commonPartsOf ["com.acme.app.entity", "com.acme.app.service"])
      ((["com.acme.app.entity", "com.acme.app.service"]).map (fun pkg => splitOnChar '.' pkg))
    ∧ resolveBasePackage ["com.acme.app.entity", "com.acme.app.service"] =
        (if 2 ≤ (commonPartsOf ["com.acme.app.entity", "com.acme.app.service"]).length
         then joinWith "." (commonPartsOf ["com.acme.app.entity", "com.acme.app.service"])
         else "com.example")
    ∧ (learnFromJavaFile utilFile initialProjectInfo).existingPackages =
        insertIfAbsent initialProjectInfo.existingPackages "com.acme.util" :=
  ⟨claim4_base_namespace.1 ["com.acme.app.entity", "com.acme.app.service"] (by decide),
   claim4_base_namespace.2.1 ["com.acme.app.entity", "com.acme.app.service"] (by decide),
   (claim4_base_namespace.2.2.2 initialProjectInfo).1⟩

/-- Learning from one file keeps every layer's accumulated directory list
duplicate-free (directories are inserted only if absent). -/
theorem learnFromJavaFile_dirs_nodup (file : JavaFile) (info : ProjectInfo)
    (h : ∀ l : Layer, ((info.layerPatterns.get l).dirs).Nodup) :
    ∀ l : Layer, (((learnFromJavaFile file info).layerPatterns.get l).dirs).Nodup := by
  intro l
  simp only [learnFromJavaFile]
  split
  · next pkg cls =>
    split
    · split
      · next layer2 _ =>
        dsimp only
        by_cases hl : l = layer2
        · subst hl
          rw [LayerPatternsMap.get_set_self]
          simp only [recordPatterns]
          exact insertIfAbsent_nodup (h l)
        · rw [LayerPatternsMap.get_set_other _ _ hl]
          exact h l
      · exact h l
    · exact h l
  · exact h l

/-- The analyzer's layer patterns are those accumulated by the walk. -/
theorem analyze_layerPatterns_eq (files : List JavaFile) :
    (analyzeProjectStructure files).layerPatterns =
      (files.foldl (fun info file => learnFromJavaFile file info) initialProjectInfo).layerPatterns :=
  rfl

/-- Every per-layer directory list accumulated by a full analysis pass is
duplicate-free. -/
theorem analyze_dirs_nodup (files : List JavaFile) (layer : Layer) :
    (((analyzeProjectStructure files).layerPatterns.get layer).dirs).Nodup := by
  have hfold : ∀ (fs : List JavaFile) (info : ProjectInfo),
      (∀ l : Layer, ((info.layerPatterns.get l).dirs).Nodup) →
      ∀ l : Layer,
        (((fs.foldl (fun i f => learnFromJavaFile f i) info).layerPatterns.get l).dirs).Nodup := by
    intro fs
    induction fs with
    | nil => intro info h l; exact h l
    | cons f fs ih => intro info h l; exact ih _ (learnFromJavaFile_dirs_nodup f info h) l
  have h0 : ∀ l : Layer, ((initialProjectInfo.layerPatterns.get l).dirs).Nodup := by
    intro l; cases l <;> exact List.nodup_nil
  rw [analyze_layerPatterns_eq]
  exact hfold files initialProjectInfo h0 layer

/-- C1 (amended): the per-layer directory list is deduplicated at insertion
(each directory recorded at most once, in first-encountered order), so
occurrence frequency cannot influence resolution; for a layer with at least
one observation the resolved directory is the first-encountered one (under
the insertion-order model of Python set iteration) — in particular one of the
observed directories — and for a layer with zero observations it is the
default `<base_package_as_path>/<layer_tag>`. -/
theorem claim1_amended (files : List JavaFile) (packageName : String) (layer : Layer) :
    (((analyzeProjectStructure files).layerPatterns.get layer).dirs).Nodup
    ∧ (((analyzeProjectStructure files).layerPatterns.get layer).dirs = [] →
        getLayerDirectory layer (analyzeProjectStructure files) packageName =
          replaceChar packageName '.' '/' ++ "/" ++ layer.key)
    ∧ (((analyzeProjectStructure files).layerPatterns.get layer).dirs ≠ [] →
        getLayerDirectory layer (analyzeProjectStructure files) packageName =
          (((analyzeProjectStructure files).layerPatterns.get layer).dirs).headD ""
        ∧ (((analyzeProjectStructure files).layerPatterns.get layer).dirs).headD "" ∈
            ((analyzeProjectStructure files).layerPatterns.get layer).dirs) := by
  refine ⟨analyze_dirs_nodup files layer, ?_, ?_⟩
  · intro h
    simp [getLayerDirectory, h]
  · intro h
    have hn := analyze_dirs_nodup files layer
    constructor
    · simp only [getLayerDirectory]
      rw [if_pos h, pyMostCommon_nodup_head _ hn h]
    · cases hd : ((analyzeProjectStructure files).layerPatterns.get layer).dirs with
      | nil => exact absurd hd h
      | cons d rest => simp [hd]

/-- Witness for C1 (amended): the nonempty case at the recorded observations
of the counterexample walk, and the empty case on the empty tree. -/
theorem claim1_amended_witness :
    (getLayerDirectory .repository (analyzeProjectStructure [dirBFile, dirAFile1, dirAFile2])
        "com.example" =
      (((analyzeProjectStructure [dirBFile, dirAFile1, dirAFile2]).layerPatterns.get
          .repository).dirs).headD ""
      ∧ (((analyzeProjectStructure [dirBFile, dirAFile1, dirAFile2]).layerPatterns.get
          .repository).dirs).headD "" ∈
          ((analyzeProjectStructure [dirBFile, dirAFile1, dirAFile2]).layerPatterns.get
            .repository).dirs)
    ∧ getLayerDirectory .entity (analyzeProjectStructure []) "com.example" =
        replaceChar "com.example" '.' '/' ++ "/" ++ Layer.key .entity :=
  ⟨(claim1_amended [dirBFile, dirAFile1, dirAFile2] "com.example" .repository).2.2 (by decide),
   (claim1_amended [] "com.example" .entity).2.1 (by decide)⟩

/-- A `filterMap` whose function constantly yields `some c` is a constant map. -/
theorem filterMap_eq_map_of_some (l : List String) (f : String → Option String) (c : String)
    (h : ∀ a ∈ l, f a = some c) : l.filterMap f = l.map (fun _ => c) := by
  induction l with
  | nil => rfl
  | cons a l ih =>
    rw [List.filterMap_cons, h a (List.mem_cons_self _ _), List.map_cons,
      ih (fun b hb => h b (List.mem_cons_of_mem _ hb))]

/-- The dto step of `_infer_project_conventions` never changes anything: the
dto layer has no suffix rule. -/
theorem inferLayerConvention_dto_id (p : LayerPatterns) (conv : Conventions) :
    inferLayerConvention .dto p conv = conv := by
  have hnil : p.naming.filterMap (suffixVote .dto) = [] :=
    List.filterMap_eq_nil_iff.mpr (fun a _ => rfl)
  simp [inferLayerConvention, hnil]

/-- A layer step with no suffix votes leaves the conventions unchanged. -/
theorem inferLayerConvention_no_votes (layer : Layer) (p : LayerPatterns) (conv : Conventions)
    (h : ∀ n ∈ p.naming, suffixVote layer n = none) :
    inferLayerConvention layer p conv = conv := by
  have hnil : p.naming.filterMap (suffixVote layer) = [] := List.filterMap_eq_nil_iff.mpr h
  simp [inferLayerConvention, hnil]

/-- The entity step does not change the repository suffix. -/
theorem inferEntity_keeps_repositorySuffix (p : LayerPatterns) (conv : Conventions) :
    (inferLayerConvention .entity p conv).repositorySuffix = conv.repositorySuffix := by
  simp only [inferLayerConvention]
  repeat' split
  all_goals rfl

/-- The entity step does not change the service suffix. -/
theorem inferEntity_keeps_serviceSuffix (p : LayerPatterns) (conv : Conventions) :
    (inferLayerConvention .entity p conv).serviceSuffix = conv.serviceSuffix := by
  simp only [inferLayerConvention]
  repeat' split
  all_goals rfl

/-- The entity step does not change the controller suffix. -/
theorem inferEntity_keeps_controllerSuffix (p : LayerPatterns) (conv : Conventions) :
    (inferLayerConvention .entity p conv).controllerSuffix = conv.controllerSuffix := by
  simp only [inferLayerConvention]
  repeat' split
  all_goals rfl

/-- The repository step does not change the entity suffix. -/
theorem inferRepository_keeps_entitySuffix (p : LayerPatterns) (conv : Conventions) :
    (inferLayerConvention .repository p conv).entitySuffix = conv.entitySuffix := by
  simp only [inferLayerConvention]
  repeat' split
  all_goals rfl

/-- The repository step does not change the service suffix. -/
theorem inferRepository_keeps_serviceSuffix (p : LayerPatterns) (conv : Conventions) :
    (inferLayerConvention .repository p conv).serviceSuffix = conv.serviceSuffix := by
  simp only [inferLayerConvention]
  repeat' split
  all_goals rfl

/-- The repository step does not change the controller suffix. -/
theorem inferRepository_keeps_controllerSuffix (p : LayerPatterns) (conv : Conventions) :
    (inferLayerConvention .repository p conv).controllerSuffix = conv.controllerSuffix := by
  simp only [inferLayerConvention]
  repeat' split
  all_goals rfl

/-- The service step does not change the entity suffix. -/
theorem inferService_keeps_entitySuffix (p : LayerPatterns) (conv : Conventions) :
    (inferLayerConvention .service p conv).entitySuffix = conv.entitySuffix := by
  simp only [inferLayerConvention]
  repeat' split
  all_goals rfl

/-- The service step does not change the repository suffix. -/
theorem inferService_keeps_repositorySuffix (p : LayerPatterns) (conv : Conventions) :
    (inferLayerConvention .service p conv).repositorySuffix = conv.repositorySuffix := by
  simp only [inferLayerConvention]
  repeat' split
  all_goals rfl

/-- The service step does not change the controller suffix. -/
theorem inferService_keeps_controllerSuffix (p : LayerPatterns) (conv : Conventions) :
    (inferLayerConvention .service p conv).controllerSuffix = conv.controllerSuffix := by
  simp only [inferLayerConvention]
  repeat' split
  all_goals rfl

/-- The controller step does not change the entity suffix. -/
theorem inferController_keeps_entitySuffix (p : LayerPatterns) (conv : Conventions) :
    (inferLayerConvention .controller p conv).entitySuffix = conv.entitySuffix := by
  simp only [inferLayerConvention]
  repeat' split
  all_goals rfl

/-- The controller step does not change the repository suffix. -/
theorem inferController_keeps_repositorySuffix (p : LayerPatterns) (conv : Conventions) :
    (inferLayerConvention .controller p conv).repositorySuffix = conv.repositorySuffix := by
  simp only [inferLayerConvention]
  repeat' split
  all_goals rfl

/-- The controller step does not change the service suffix. -/
theorem inferController_keeps_serviceSuffix (p : LayerPatterns) (conv : Conventions) :
    (inferLayerConvention .controller p conv).serviceSuffix = conv.serviceSuffix := by
  simp only [inferLayerConvention]
  repeat' split
  all_goals rfl

/-- The entity step on a layer whose every observed name is unrecognized
(each vote is the empty suffix) resolves the entity suffix to `""`. -/
theorem inferLayerConvention_entity_unsuffixed (p : LayerPatterns) (conv : Conventions)
    (hne : p.naming ≠ [])
    (h : ∀ n ∈ p.naming, suffixVote .entity n = some "") :
    inferLayerConvention .entity p conv = { conv with entitySuffix := "" } := by
  have hvotes : p.naming.filterMap (suffixVote .entity) = p.naming.map (fun _ => "") :=
    filterMap_eq_map_of_some _ _ _ h
  have hm : p.naming.map (fun _ => "") ≠ [] := by simpa using hne
  have hmc : pyMostCommon (p.naming.filterMap (suffixVote .entity)) = some "" := by
    rw [hvotes]
    exact pyMostCommon_all_eq _ "" hm (by simp)
  simp only [inferLayerConvention]
  rw [if_pos hne, if_pos (by rw [hvotes]; exact hm), hmc]

/-- C7 (amended): per-layer suffix resolution picks a most-frequent suffix
vote — on the observation list `["OrderRepository", "OrderRepository",
"OrderDao"]` the repository suffix resolves to `"Repository"` (2 vs 1) — but
when no observed type name carries a recognized suffix the outcome is:
entity resolves to `""` only when the layer has at least one observation
(unsuffixed names vote for the empty suffix), while a layer with zero
observations keeps the initialized defaults entity→`"Entity"`,
repository→`"Repository"`, service→`"Service"`, controller→`"Controller"`,
and unrecognized names in the non-entity layers contribute no vote, leaving
those defaults in place. -/
theorem claim7_amended :
    (inferProjectConventions repoNamingInfo).conventions.repositorySuffix = "Repository"
    ∧ (inferProjectConventions initialProjectInfo).conventions = initialProjectInfo.conventions
    ∧ initialProjectInfo.conventions.entitySuffix = "Entity"
    ∧ (∀ info : ProjectInfo,
        (info.layerPatterns.get .entity).naming ≠ [] →
        (∀ n ∈ (info.layerPatterns.get .entity).naming, suffixVote .entity n = some "") →
          (inferProjectConventions info).conventions.entitySuffix = "")
    ∧ (∀ info : ProjectInfo,
        (∀ n ∈ (info.layerPatterns.get .repository).naming, suffixVote .repository n = none) →
          (inferProjectConventions info).conventions.repositorySuffix =
            info.conventions.repositorySuffix)
    ∧ (∀ info : ProjectInfo,
        (∀ n ∈ (info.layerPatterns.get .service).naming, suffixVote .service n = none) →
          (inferProjectConventions info).conventions.serviceSuffix =
            info.conventions.serviceSuffix)
    ∧ (∀ info : ProjectInfo,
        (∀ n ∈ (info.layerPatterns.get .controller).naming, suffixVote .controller n = none) →
          (inferProjectConventions info).conventions.controllerSuffix =
            info.conventions.controllerSuffix) := by
  refine ⟨by decide, by decide, by decide, ?_, ?_, ?_, ?_⟩
  · intro info hne h
    simp only [inferProjectConventions]
    rw [inferLayerConvention_dto_id, inferController_keeps_entitySuffix,
      inferService_keeps_entitySuffix, inferRepository_keeps_entitySuffix,
      inferLayerConvention_entity_unsuffixed _ _ hne h]
  · intro info h
    simp only [inferProjectConventions]
    rw [inferLayerConvention_dto_id, inferController_keeps_repositorySuffix,
      inferService_keeps_repositorySuffix, inferLayerConvention_no_votes _ _ _ h,
      inferEntity_keeps_repositorySuffix]
  · intro info h
    simp only [inferProjectConventions]
    rw [inferLayerConvention_dto_id, inferController_keeps_serviceSuffix,
      inferLayerConvention_no_votes _ _ _ h, inferRepository_keeps_serviceSuffix,
      inferEntity_keeps_serviceSuffix]
  · intro info h
    simp only [inferProjectConventions]
    rw [inferLayerConvention_dto_id, inferLayerConvention_no_votes _ _ _ h,
      inferService_keeps_controllerSuffix, inferRepository_keeps_controllerSuffix,
      inferEntity_keeps_controllerSuffix]

/-- Witness for C7 (amended): every layer observed with only unrecognized
type names — entity resolves to `""`, the other layers keep their defaults. -/
theorem claim7_amended_witness :
    (inferProjectConventions unsuffixedInfo).conventions.entitySuffix = ""
    ∧ (inferProjectConventions unsuffixedInfo).conventions.repositorySuffix =
        unsuffixedInfo.conventions.repositorySuffix
    ∧ (inferProjectConventions unsuffixedInfo).conventions.serviceSuffix =
        unsuffixedInfo.conventions.serviceSuffix
    ∧ (inferProjectConventions unsuffixedInfo).conventions.controllerSuffix =
        unsuffixedInfo.conventions.controllerSuffix :=
  ⟨claim7_amended.2.2.2.1 unsuffixedInfo (by decide) (by decide),
   claim7_amended.2.2.2.2.1 unsuffixedInfo (by decide),
   claim7_amended.2.2.2.2.2.1 unsuffixedInfo (by decide),
   claim7_amended.2.2.2.2.2.2 unsuffixedInfo (by decide)⟩

end EasyCodeGen
